import Mathlib

/-!
Verification development for the court-reservation orchestration engine
(`app/reservation_service.py`, `app/scheduler_service.py`, `app/models.py`).

Shallow embedding conventions:
* a datetime is an `Int` (minutes since an arbitrary epoch) where absolute
  time matters, and a `Nat` hour offset from the saga's start time inside
  the booking saga;
* courts are the four indices `0..3` (`court_indices = list(range(4))`);
  the 1-based `court` metadata field of the Python result dicts is kept;
* the reservation backend is abstracted by an availability oracle
  `avail : Nat → Nat → Bool` (hour offset, court index ↦ does
  `make_single_reservation` succeed), a scraped reservation list, and a
  cancellation oracle `cancelOk : Nat → Bool` (reservation id ↦ does the
  cancellation request return HTTP 200).
-/

/-- One entry of the result-dict list produced by
`ReservationService.make_continuous_reservations`: `success`, `message`,
the slot (hour offset from the saga start) and the 1-based `court` field
(`none` on the synthetic failure rows, which carry `"court": None`). -/
structure ResDict where
  success : Bool
  message : String
  hour : Nat
  court : Option Nat
  deriving Repr, DecidableEq

/-- Python `itertools.combinations` on a list of court indices, in the
lexicographic emission order of `itertools`. -/
def combinations : List Nat → Nat → List (List Nat)
  | _, 0 => [[]]
  | [], _ + 1 => []
  | x :: xs, k + 1 => ((combinations xs k).map (fun c => x :: c)) ++ combinations xs (k + 1)

/-- The `is_sequential` predicate of `make_continuous_reservations`:
singletons are sequential, otherwise every adjacent difference must be 1. -/
def is_sequential (combo : List Nat) : Bool :=
  if combo.length == 1 then true
  else (combo.zip combo.tail).all fun p => ((p.2 : Int) - (p.1 : Int)) == 1

/-- `sorted_combinations` of `make_continuous_reservations`: all
`num_courts`-subsets of `range(4)`, sequential runs first, each group in
the original `itertools.combinations` order. -/
def sorted_combinations (num_courts : Nat) : List (List Nat) :=
  let cc := combinations (List.range 4) num_courts
  cc.filter is_sequential ++ cc.filter (fun c => ! is_sequential c)

/-- A fresh successful booking row for hour offset `hour` on court index
`c` (the Python code stores `court = court_index + 1`). -/
def bookedRow (hour c : Nat) : ResDict :=
  { success := true, message := "", hour := hour, court := some (c + 1) }

/-- The inner `for court_index in combo` loop of the saga for one hour:
books each court of the combo in order, stopping at the first failure.
Returns (`all_success`, the successful rows — which the Python code
appends both to `hour_results` and to `all_created_reservations` —, and
the `(hour, court index)` attempts actually issued, the failing one
included). -/
def tryCourts (avail : Nat → Nat → Bool) (hour : Nat) :
    List Nat → Bool × List ResDict × List (Nat × Nat)
  | [] => (true, [], [])
  | c :: rest =>
    if avail hour c then
      let r := tryCourts avail hour rest
      (r.1, bookedRow hour c :: r.2.1, (hour, c) :: r.2.2)
    else
      (false, [], [(hour, c)])

/-- The `for court_combo in sorted_combinations` fallback loop for one
hour. Returns (the first fully successful combo if any, its rows (the
accepted `hour_results`), every row created during this loop — failed
combos' partial successes included —, and all attempts issued). -/
def tryFallback (avail : Nat → Nat → Bool) (hour : Nat) :
    List (List Nat) → Option (List Nat) × List ResDict × List ResDict × List (Nat × Nat)
  | [] => (none, [], [], [])
  | combo :: rest =>
    let r := tryCourts avail hour combo
    if r.1 then
      (some combo, r.2.1, r.2.1, r.2.2)
    else
      let rec' := tryFallback avail hour rest
      (rec'.1, rec'.2.1, r.2.1 ++ rec'.2.2.1, r.2.2 ++ rec'.2.2.2)

/-- Saga-loop state: the accepted `results`, the tracked
`all_created_reservations`, `last_used_courts`, and the log of issued
single-slot booking attempts. -/
structure SagaState where
  results : List ResDict
  created : List ResDict
  lastUsed : Option (List Nat)
  attempts : List (Nat × Nat)
  deriving Repr, DecidableEq

/-- The fallback branch of one hour iteration (`if not hour_booked`):
runs the ordered enumeration; on success extends the accepted results and
updates `last_used_courts`, on failure only the tracking state grows. -/
def bookHourFallback (avail : Nat → Nat → Bool) (num_courts hour : Nat)
    (st : SagaState) : Bool × SagaState :=
  let r := tryFallback avail hour (sorted_combinations num_courts)
  match r.1 with
  | some combo =>
    (true,
     { results := st.results ++ r.2.1
       created := st.created ++ r.2.2.1
       lastUsed := some combo
       attempts := st.attempts ++ r.2.2.2 })
  | none =>
    (false, { st with created := st.created ++ r.2.2.1, attempts := st.attempts ++ r.2.2.2 })

/-- One hour iteration of the saga loop: if `last_used_courts` is set, the
continuity heuristic retries exactly those courts first, and only on a
failure among them falls back to the ordered enumeration. -/
def bookHour (avail : Nat → Nat → Bool) (num_courts hour : Nat)
    (st : SagaState) : Bool × SagaState :=
  match st.lastUsed with
  | some s =>
    let r := tryCourts avail hour s
    if r.1 then
      (true,
       { st with
         results := st.results ++ r.2.1
         created := st.created ++ r.2.1
         attempts := st.attempts ++ r.2.2 })
    else
      bookHourFallback avail num_courts hour
        { st with created := st.created ++ r.2.1, attempts := st.attempts ++ r.2.2 }
  | none => bookHourFallback avail num_courts hour st

/-- The `for hour in range(hours)` loop: books hour by hour, aborting the
remaining hours as soon as one hour cannot be fully booked. Returns
(overall success, the hour index that failed, final state). -/
def sagaLoop (avail : Nat → Nat → Bool) (num_courts : Nat) :
    Nat → Nat → SagaState → Bool × Nat × SagaState
  | 0, _, st => (true, 0, st)
  | n + 1, hour, st =>
    let r := bookHour avail num_courts hour st
    if r.1 then sagaLoop avail num_courts n (hour + 1) r.2
    else (false, hour, r.2)

/-- One row of the scraped "my reservations" page: backend reservation id,
slot (hour offset) and the parsed 1-based court number (`none` when the
`Kort N` regex finds nothing). -/
structure ScrapedReservation where
  reservation_id : Nat
  hour : Nat
  court : Option Nat
  deriving Repr, DecidableEq

/-- `ReservationService._cleanup_unwanted_reservations`, returning the
list of reservation ids whose cancellation request succeeded. Mirrors the
Python guards: an empty `successful_results` or an empty
`all_created_reservations` returns immediately with no cancellation
issued; cancellation failures are skipped. -/
def cleanup_unwanted (successful created : List ResDict)
    (scraped : List ScrapedReservation) (cancelOk : Nat → Bool) : List Nat :=
  if successful.isEmpty || created.isEmpty then []
  else
    let successful_slots := successful.filterMap fun r =>
      match r.court with
      | some c => if c != 0 then some (r.hour, c) else none
      | none => none
    let to_cancel := (created.filter fun c =>
      ! (match c.court with
         | some cc => if cc != 0 then successful_slots.contains (c.hour, cc) else false
         | none => false)).map fun c => (c.hour, c.court)
    if to_cancel.isEmpty then []
    else if scraped.isEmpty then []
    else
      let to_cancel_ids := (scraped.filter fun s =>
        to_cancel.contains (s.hour, s.court)).map fun s => s.reservation_id
      to_cancel_ids.filter cancelOk

/-- The observable outcome of one `make_continuous_reservations` call:
the returned result-dict list, the internally tracked
`all_created_reservations`, the booking attempts issued, the reservation
ids cancelled by the compensation pass, and whether every returned row is
successful. -/
structure SagaOutcome where
  results : List ResDict
  created : List ResDict
  attempts : List (Nat × Nat)
  cancelled : List Nat
  ok : Bool
  deriving Repr, DecidableEq

/-- The failure row returned when some hour cannot be booked at all. -/
def hourFailRow (hour : Nat) : ResDict :=
  { success := false, message := "Could not find available courts", hour := hour, court := none }

/-- The failure row returned when authentication fails. -/
def authFailRow : ResDict :=
  { success := false, message := "Authentication failed", hour := 0, court := none }

/-- `ReservationService.make_continuous_reservations`: authentication
check, the hour-by-hour saga with the continuity heuristic, and the
compensation pass (`_cleanup_unwanted_reservations`) on both exits —
called with `successful_results = []` on the total-failure exit and with
`successful_results = results` on the success exit. -/
def make_continuous_reservations (authOk : Bool) (avail : Nat → Nat → Bool)
    (scraped : List ScrapedReservation) (cancelOk : Nat → Bool)
    (hours num_courts : Nat) : SagaOutcome :=
  if ! authOk then
    { results := [authFailRow], created := [], attempts := [], cancelled := [], ok := false }
  else
    let init : SagaState := { results := [], created := [], lastUsed := none, attempts := [] }
    let r := sagaLoop avail num_courts hours 0 init
    if r.1 then
      { results := r.2.2.results
        created := r.2.2.created
        attempts := r.2.2.attempts
        cancelled := cleanup_unwanted r.2.2.results r.2.2.created scraped cancelOk
        ok := true }
    else
      { results := [hourFailRow r.2.1]
        created := r.2.2.created
        attempts := r.2.2.attempts
        cancelled := cleanup_unwanted [] r.2.2.created scraped cancelOk
        ok := false }

/-! ## Scheduler (`app/scheduler_service.py`) -/

/-- The mutable metadata fields of a one-time job that
`_execute_reservation_with_retry` touches. -/
structure JobMeta where
  status : String
  retry_count : Nat
  next_retry : Option Int
  deriving Repr, DecidableEq

/-- The id under which a pending retry timer is registered:
`f"{job_id}_retry_{retry_count + 1}"`. -/
def retryJobId (job_id : String) (n : Nat) : String :=
  job_id ++ "_retry_" ++ toString n

/-- The observable outcome of one `_execute_reservation_with_retry`
firing: the final metadata, whether a booking attempt (a
`make_continuous_reservations` call) was performed, and the retry timer
armed, if any, as (run instant, scheduler job id). -/
structure ExecResult where
  meta : JobMeta
  attempted : Bool
  scheduledRetry : Option (Int × String)
  deriving Repr, DecidableEq

/-- `SchedulerService._execute_reservation_with_retry`: sets status
`running` with no prior status check, performs the saga unconditionally,
then on full success marks `completed`, on failure with
`retry_count < max_retries` arms a retry at `now + 2^retry_count` minutes
under a suffixed job id and marks `retrying`, otherwise marks `failed`. -/
def execute_reservation_with_retry (job_id : String) (meta : JobMeta)
    (authOk : Bool) (avail : Nat → Nat → Bool)
    (scraped : List ScrapedReservation) (cancelOk : Nat → Bool)
    (hours num_courts : Nat)
    (retry_count max_retries : Nat) (now : Int) : ExecResult :=
  let meta0 : JobMeta :=
    { meta with status := "running", retry_count := retry_count }
  let results := (make_continuous_reservations authOk avail scraped cancelOk
    hours num_courts).results
  if results.all (fun r => r.success) then
    { meta := { meta0 with status := "completed" }, attempted := true, scheduledRetry := none }
  else if retry_count < max_retries then
    let next_run : Int := now + 2 ^ retry_count
    { meta := { meta0 with status := "retrying", next_retry := some next_run }
      attempted := true
      scheduledRetry := some (next_run, retryJobId job_id (retry_count + 1)) }
  else
    { meta := { meta0 with status := "failed" }, attempted := true, scheduledRetry := none }

/-- `SchedulerService.cancel_job`'s effect on the set of timers registered
with the scheduler: only the entry whose id equals the job's own id is
removed. -/
def cancel_job_registry (job_id : String) (registry : List String) : List String :=
  registry.filter (fun s => s != job_id)

/-- The metadata fields of a recurring watcher that
`_check_and_book_if_available` touches. -/
structure WatcherMeta where
  status : String
  check_count : Nat
  deriving Repr, DecidableEq

/-- The observable outcome of one watcher tick: the final metadata,
whether a booking attempt was performed, and whether the recurring timer
was deregistered. -/
structure TickResult where
  meta : WatcherMeta
  attempted : Bool
  deregistered : Bool
  deriving Repr, DecidableEq

/-- `SchedulerService._check_and_book_if_available`: a cancelled job only
deregisters its timer; past the reservation instant the job is marked
`expired` and deregistered with no booking attempt; otherwise the saga is
attempted, marking `completed` (deregistering) on full success and
`scheduled` on failure. -/
def check_and_book_if_available (meta : WatcherMeta)
    (now reservation_datetime : Int)
    (authOk : Bool) (avail : Nat → Nat → Bool)
    (scraped : List ScrapedReservation) (cancelOk : Nat → Bool)
    (hours num_courts : Nat) : TickResult :=
  if meta.status == "cancelled" then
    { meta := meta, attempted := false, deregistered := true }
  else if reservation_datetime ≤ now then
    { meta := { meta with status := "expired" }, attempted := false, deregistered := true }
  else
    let meta1 : WatcherMeta := { status := "running", check_count := meta.check_count + 1 }
    let results := (make_continuous_reservations authOk avail scraped cancelOk
      hours num_courts).results
    if results.all (fun r => r.success) then
      { meta := { meta1 with status := "completed" }, attempted := true, deregistered := true }
    else
      { meta := { meta1 with status := "scheduled" }, attempted := true, deregistered := false }

/-! ## Startup recovery (`SchedulerService._load_jobs`) -/

/-- One persisted job record as stored in `scheduled_jobs.json`. A
datetime-valued field is `none` when the key is missing, `some none` when
present but not parseable by `datetime.fromisoformat`, and
`some (some t)` when it parses to instant `t`. -/
structure StoredJob where
  status : String
  job_type : String
  email : Option String
  password : Option String
  reservation_datetime : Option (Option Int)
  hours : Option Nat
  num_courts : Option Nat
  run_time : Option (Option Int)
  next_retry : Option (Option Int)
  retry_count : Option Nat
  deriving Repr, DecidableEq

/-- `datetime.fromisoformat` applied to a stored field: raises `TypeError`
on a missing value (`None`) and `ValueError` on a malformed string. -/
def fromisoformat : Option (Option Int) → Except String Int
  | none => Except.error "TypeError: fromisoformat argument must be str"
  | some none => Except.error "ValueError: invalid isoformat string"
  | some (some t) => Except.ok t

/-- Python truthiness of an optional string field. -/
def truthyStr : Option String → Bool
  | some s => s != ""
  | none => false

/-- What `_load_jobs` does with one stored record. -/
inductive LoadOutcome where
  /-- Record left untouched and no timer armed (inactive status, the
  `if not all([...]): continue` guard, a missing `run_time`/`next_retry`,
  or a stored one-time instant already in the past). -/
  | skipped
  /-- A one-time timer armed at `runAt` resuming at `retry_count`. -/
  | armedOneTime (runAt : Int) (retry_count : Nat)
  /-- A 30-minute recurring timer armed starting at `startAt`. -/
  | armedRecurring (startAt : Int)
  /-- Status set to `expired`. -/
  | markedExpired
  /-- Status set to `error` with a diagnostic (the `except` branch). -/
  | markedError (msg : String)
  /-- An exception escapes the per-record `try` (it only covers the code
  after the `reservation_datetime` parse), aborting `_load_jobs`. -/
  | raised (msg : String)
  deriving Repr, DecidableEq

/-- The per-record body of the `_load_jobs` reconstruction loop. -/
def loadOne (now : Int) (m : StoredJob) : LoadOutcome :=
  if ! (m.status == "scheduled" || m.status == "running" || m.status == "retrying") then
    LoadOutcome.skipped
  else
    match fromisoformat m.reservation_datetime with
    | Except.error e => LoadOutcome.raised e
    | Except.ok resDT =>
      if ! (truthyStr m.email && truthyStr m.password && (m.hours.getD 0 != 0)) then
        LoadOutcome.skipped
      else if m.job_type == "one-time" then
        let run_time_str := match m.run_time with
          | some v => some v
          | none => m.next_retry
        match run_time_str with
        | none => LoadOutcome.skipped
        | some v =>
          match fromisoformat (some v) with
          | Except.error e =>
            LoadOutcome.markedError ("Failed to reconstruct job on startup: " ++ e)
          | Except.ok rt =>
            if now < rt then LoadOutcome.armedOneTime rt (m.retry_count.getD 0)
            else LoadOutcome.skipped
      else if m.job_type == "recurring" then
        if now < resDT then
          match fromisoformat m.run_time with
          | Except.error e =>
            LoadOutcome.markedError ("Failed to reconstruct job on startup: " ++ e)
          | Except.ok rt =>
            LoadOutcome.armedRecurring (if now < rt then rt else now)
        else LoadOutcome.markedExpired
      else LoadOutcome.skipped

/-- The `_load_jobs` loop over all stored records: an exception raised
outside the per-record `try` propagates, aborting the loop — the
remaining records are never processed. -/
def loadJobs (now : Int) : List StoredJob → Except String (List LoadOutcome)
  | [] => Except.ok []
  | m :: rest =>
    match loadOne now m with
    | LoadOutcome.raised e => Except.error e
    | o =>
      match loadJobs now rest with
      | Except.ok os => Except.ok (o :: os)
      | Except.error e => Except.error e

/-! ## Request validation (`app/models.py`) -/

/-- Python `str.endswith`, evaluated over the character list. -/
def endswith (s suffix : String) : Bool :=
  suffix.data.isSuffixOf s.data

/-- `Route1Request.validate_time_format`: rejects a truthy (non-empty)
time value that does not end in `:30`; `None` and the empty string pass. -/
def route1_validate_time_format (v : Option String) : Except String (Option String) :=
  match v with
  | some s =>
    if s != "" && ! (endswith s ":30") then Except.error "Time must be in XX:30 format"
    else Except.ok (some s)
  | none => Except.ok none

/-- `Route2Request.validate_time_format` (same body as route 1's). -/
def route2_validate_time_format (v : Option String) : Except String (Option String) :=
  match v with
  | some s =>
    if s != "" && ! (endswith s ":30") then Except.error "Time must be in XX:30 format"
    else Except.ok (some s)
  | none => Except.ok none

/-- `Route3Request.validate_time_format` (same body as route 1's). -/
def route3_validate_time_format (v : Option String) : Except String (Option String) :=
  match v with
  | some s =>
    if s != "" && ! (endswith s ":30") then Except.error "Time must be in XX:30 format"
    else Except.ok (some s)
  | none => Except.ok none

/-- Whether a validator accepts a value. -/
def acceptsTime (validate : Option String → Except String (Option String))
    (v : Option String) : Bool :=
  match validate v with
  | Except.ok _ => true
  | Except.error _ => false

/-- Whether a request's `start_time`/`end_time` pair passes the
`validate_time_format` field validator of the given route; pydantic runs
field validators before the route handler, so a rejected pair never
reaches the booking or scheduling code. -/
def requestTimesAccepted (validate : Option String → Except String (Option String))
    (start_time : String) (end_time : Option String) : Bool :=
  acceptsTime validate (some start_time) && acceptsTime validate end_time

/-! ## Helper lemmas and statement vocabulary -/

/-- Strict lexicographic order on index lists; used only to state the
claimed enumeration order. -/
def lexLt : List Nat → List Nat → Bool
  | _, [] => false
  | [], _ :: _ => true
  | a :: as, b :: bs => decide (a < b) || (a == b && lexLt as bs)

/-- Holds when every adjacent pair of the list satisfies `rel`. -/
def adjacentAll (rel : List Nat → List Nat → Bool) (l : List (List Nat)) : Bool :=
  (l.zip l.tail).all fun p => rel p.1 p.2

/-- Modelled from the claim's wording (to be compared with the
source-derived `sorted_combinations`): all subsets of consecutive indices
come first, ascending by lowest member index, followed by all
non-consecutive subsets in ascending order, and the list enumerates every
K-subset of the four court indices exactly once. -/
abbrev combOrderSpec (k : Nat) : Prop :=
  ((sorted_combinations k).dropWhile is_sequential).all (fun c => ! is_sequential c) = true ∧
  adjacentAll (fun a b => Nat.ble (a.headD 0) (b.headD 0))
    ((sorted_combinations k).takeWhile is_sequential) = true ∧
  adjacentAll lexLt ((sorted_combinations k).takeWhile is_sequential) = true ∧
  adjacentAll (fun a b => Nat.ble (a.headD 0) (b.headD 0))
    ((sorted_combinations k).dropWhile is_sequential) = true ∧
  adjacentAll lexLt ((sorted_combinations k).dropWhile is_sequential) = true ∧
  (sorted_combinations k).Nodup ∧
  (sorted_combinations k).length = Nat.choose 4 k ∧
  ∀ c ∈ combinations (List.range 4) k, c ∈ sorted_combinations k

/-- When every court of a combo is available for the hour, the inner
booking loop books them all, in order, with no further attempt. -/
theorem tryCourts_all_success (avail : Nat → Nat → Bool) (hour : Nat) :
    ∀ s : List Nat, (∀ c ∈ s, avail hour c = true) →
      tryCourts avail hour s =
        (true, s.map (bookedRow hour), s.map (fun c => (hour, c)))
  | [], _ => rfl
  | c :: rest, h => by
    have hc : avail hour c = true := h c (List.mem_cons_self c rest)
    have ih := tryCourts_all_success avail hour rest (fun x hx => h x (List.mem_cons_of_mem c hx))
    simp [tryCourts, hc, ih]

/-! ## Claim theorems -/

/-- Claim C4: for the pool of 4 courts and every K with 1 ≤ K ≤ 4, the
ordered subset list the saga tries places all subsets of consecutive
indices first, ascending by lowest member index, then all non-consecutive
subsets in ascending order, and for K = 2 the order is exactly
(1,2), (2,3), (3,4), (1,3), (1,4), (2,4) in 1-based court numbers. -/
theorem c4_subset_enumeration_order :
    combOrderSpec 1 ∧ combOrderSpec 2 ∧ combOrderSpec 3 ∧ combOrderSpec 4 ∧
    (sorted_combinations 2).map (fun c => c.map (fun i => i + 1)) =
      [[1, 2], [2, 3], [3, 4], [1, 3], [1, 4], [2, 4]] := by
  decide

/-- Claim C1 (code bug): a 2-hour, 1-court saga books court 1 at hour 0,
finds no court at hour 1, and aborts; the tracked booking is visible on
the backend as reservation id 101 and every cancellation call would
succeed, yet the compensation pass cancels nothing — the guard
`if not successful_results` in `_cleanup_unwanted_reservations` returns
immediately because the accepted plan is empty on total failure, leaving
one net new reservation instead of zero. -/
theorem c1_compensation_skipped_on_total_failure :
    (make_continuous_reservations true (fun h c => h == 0 && c == 0)
        [{ reservation_id := 101, hour := 0, court := some 1 }] (fun _ => true) 2 1).ok
      = false ∧
    (make_continuous_reservations true (fun h c => h == 0 && c == 0)
        [{ reservation_id := 101, hour := 0, court := some 1 }] (fun _ => true) 2 1).created
      = [bookedRow 0 0] ∧
    (make_continuous_reservations true (fun h c => h == 0 && c == 0)
        [{ reservation_id := 101, hour := 0, court := some 1 }] (fun _ => true) 2 1).cancelled
      = [] ∧
    cleanup_unwanted [] [bookedRow 0 0]
        [{ reservation_id := 101, hour := 0, court := some 1 }] (fun _ => true) = [] := by
  decide

/-- A persisted one-time record in status `retrying` whose original
`run_time` (instant 100) has passed but whose stored `next_retry`
(instant 500) is still in the future at process start (now = 200). -/
def c2Record : StoredJob :=
  { status := "retrying", job_type := "one-time", email := some "a@b.c"
    password := some "p", reservation_datetime := some (some 10000)
    hours := some 2, num_courts := some 1, run_time := some (some 100)
    next_retry := some (some 500), retry_count := some 3 }

/-- Claim C2 (code bug): startup recovery re-arms no timer at all for a
`retrying` record with a future `next_retry`: the expression
`metadata.get("run_time") or metadata.get("next_retry")` reads the
original `run_time` whenever that key is present — and
`schedule_reservation` always stores it — so the stored future
`next_retry` (500) is never consulted, the past `run_time` (100) fails
the `run_time > now` test, and the record is dropped with zero timers
instead of exactly one timer at instant 500. -/
theorem c2_retrying_record_loses_its_timer :
    c2Record.status = "retrying" ∧
    c2Record.next_retry = some (some 500) ∧ (200 : Int) < 500 ∧
    loadOne 200 c2Record = LoadOutcome.skipped := by
  decide

/-- A stored record whose `reservation_datetime` is present but not
parseable by `datetime.fromisoformat`. -/
def c8BadDatetime : StoredJob :=
  { status := "scheduled", job_type := "one-time", email := some "a@b.c"
    password := some "p", reservation_datetime := some none
    hours := some 1, num_courts := some 1, run_time := some (some 900)
    next_retry := none, retry_count := some 0 }

/-- A well-formed stored record with a future `run_time` (instant 900). -/
def c8GoodRecord : StoredJob :=
  { status := "scheduled", job_type := "one-time", email := some "c@d.e"
    password := some "q", reservation_datetime := some (some 10000)
    hours := some 1, num_courts := some 1, run_time := some (some 900)
    next_retry := none, retry_count := some 0 }

/-- A stored record with a missing `email` field. -/
def c8MissingEmail : StoredJob :=
  { status := "scheduled", job_type := "one-time", email := none
    password := some "p", reservation_datetime := some (some 10000)
    hours := some 1, num_courts := some 1, run_time := some (some 900)
    next_retry := none, retry_count := some 0 }

/-- Claim C8 (code bug): startup recovery neither marks every broken
record `error` nor isolates failures. A record with a missing field
(`email`) is silently skipped with no `error` status and no diagnostic
(the `if not all([...]): continue` guard); a record whose
`reservation_datetime` does not parse raises outside the per-record
`try` — `datetime.fromisoformat` is called before it — aborting
`_load_jobs`, so the following well-formed record (which alone would be
re-armed at instant 900) is never processed. -/
theorem c8_reconstruction_failure_not_isolated :
    loadOne 200 c8MissingEmail = LoadOutcome.skipped ∧
    loadJobs 200 [c8BadDatetime, c8GoodRecord] =
      Except.error "ValueError: invalid isoformat string" ∧
    loadOne 200 c8GoodRecord = LoadOutcome.armedOneTime 900 0 :=
  ⟨rfl, rfl, rfl⟩

/-- What the shared `validate_time_format` body accepts: route 1. -/
theorem acceptsTime_route1 (s : String) :
    acceptsTime route1_validate_time_format (some s) = (s == "" || endswith s ":30") := by
  unfold acceptsTime route1_validate_time_format
  cases h1 : s == "" <;> cases h2 : endswith s ":30" <;> simp [bne, h1, h2]

/-- What the shared `validate_time_format` body accepts: route 2. -/
theorem acceptsTime_route2 (s : String) :
    acceptsTime route2_validate_time_format (some s) = (s == "" || endswith s ":30") := by
  unfold acceptsTime route2_validate_time_format
  cases h1 : s == "" <;> cases h2 : endswith s ":30" <;> simp [bne, h1, h2]

/-- What the shared `validate_time_format` body accepts: route 3. -/
theorem acceptsTime_route3 (s : String) :
    acceptsTime route3_validate_time_format (some s) = (s == "" || endswith s ":30") := by
  unfold acceptsTime route3_validate_time_format
  cases h1 : s == "" <;> cases h2 : endswith s ":30" <;> simp [bne, h1, h2]

/-- Claim C10 is false as stated: the empty string does not end with
`:30`, yet all three routes' `validate_time_format` accept it — the
truthiness guard `if v and ...` skips the suffix check for a falsy
value. -/
theorem c10_empty_time_slips_through :
    requestTimesAccepted route1_validate_time_format "" none = true ∧
    requestTimesAccepted route2_validate_time_format "" none = true ∧
    requestTimesAccepted route3_validate_time_format "" none = true ∧
    endswith "" ":30" = false := by
  decide

/-- Claim C10 amended: on each of the three public booking routes, a
supplied `start_time`/`end_time` passes the `validate_time_format` field
validator exactly when it is the empty string or ends with the literal
suffix `:30`; an absent `end_time` passes; any nonempty time not ending
in `:30` — in particular an on-the-hour time such as "10:00" — is
rejected by request validation, which pydantic runs before the route
handler, so no booking or scheduling side effect occurs for it. -/
theorem c10_time_suffix_validation (s : String) :
    acceptsTime route1_validate_time_format (some s) = (s == "" || endswith s ":30") ∧
    acceptsTime route2_validate_time_format (some s) = (s == "" || endswith s ":30") ∧
    acceptsTime route3_validate_time_format (some s) = (s == "" || endswith s ":30") ∧
    acceptsTime route1_validate_time_format none = true ∧
    acceptsTime route2_validate_time_format none = true ∧
    acceptsTime route3_validate_time_format none = true ∧
    acceptsTime route1_validate_time_format (some "10:00") = false ∧
    acceptsTime route2_validate_time_format (some "10:00") = false ∧
    acceptsTime route3_validate_time_format (some "10:00") = false :=
  ⟨acceptsTime_route1 s, acceptsTime_route2 s, acceptsTime_route3 s,
   rfl, rfl, rfl, by decide, by decide, by decide⟩

/-- Claim C6: with `max_retries = 6`, a saga attempt failing at retry
count r < 6 arms the next retry at `now + 2^r` minutes under the suffixed
job id with status `retrying`, so the successive delays for r = 0..5 are
exactly 1, 2, 4, 8, 16, 32 minutes; the failing attempt at retry count 6
sets status `failed` and arms no 7th retry. -/
theorem c6_exponential_backoff_schedule (job_id : String) (meta : JobMeta)
    (authOk : Bool) (avail : Nat → Nat → Bool) (scraped : List ScrapedReservation)
    (cancelOk : Nat → Bool) (hours num_courts r : Nat) (now : Int)
    (hfail : (make_continuous_reservations authOk avail scraped cancelOk hours
      num_courts).results.all (fun x => x.success) = false) (hr : r < 6) :
    (execute_reservation_with_retry job_id meta authOk avail scraped cancelOk hours
        num_courts r 6 now =
      { meta := { status := "retrying", retry_count := r, next_retry := some (now + 2 ^ r) }
        attempted := true
        scheduledRetry := some (now + 2 ^ r, retryJobId job_id (r + 1)) }) ∧
    (List.range 6).map (fun i => (2 : Int) ^ i) = [1, 2, 4, 8, 16, 32] ∧
    execute_reservation_with_retry job_id meta authOk avail scraped cancelOk hours
        num_courts 6 6 now =
      { meta := { status := "failed", retry_count := 6, next_retry := meta.next_retry }
        attempted := true
        scheduledRetry := none } := by
  refine ⟨?_, by decide, ?_⟩
  · simp [execute_reservation_with_retry, hfail, hr]
  · simp [execute_reservation_with_retry, hfail]

/-- Witness for C6 at retry count 3, now = 100: the saga with failing
authentication yields a failing attempt, and the retry is armed 8 minutes
later. -/
theorem c6_exponential_backoff_schedule_witness :
    ((make_continuous_reservations false (fun _ _ => false) [] (fun _ => true) 1
      1).results.all (fun x => x.success) = false) ∧ 3 < 6 ∧
    execute_reservation_with_retry "job" ⟨"scheduled", 0, none⟩ false (fun _ _ => false)
        [] (fun _ => true) 1 1 3 6 100 =
      { meta := { status := "retrying", retry_count := 3, next_retry := some (100 + 2 ^ 3) }
        attempted := true
        scheduledRetry := some (100 + 2 ^ 3, retryJobId "job" (3 + 1)) } :=
  ⟨by decide, by decide,
   (c6_exponential_backoff_schedule "job" ⟨"scheduled", 0, none⟩ false (fun _ _ => false)
     [] (fun _ => true) 1 1 3 100 (by decide) (by decide)).1⟩

/-- Claim C7: a tick of a recurring cancellation watcher that runs at or
after the target reservation instant, with a status other than
`cancelled`, sets the status to `expired`, deregisters the timer and
performs no booking attempt, whatever the current `check_count`. -/
theorem c7_watcher_tick_expires_after_target (meta : WatcherMeta)
    (now reservation_datetime : Int) (authOk : Bool) (avail : Nat → Nat → Bool)
    (scraped : List ScrapedReservation) (cancelOk : Nat → Bool) (hours num_courts : Nat)
    (hc : meta.status ≠ "cancelled") (ht : reservation_datetime ≤ now) :
    check_and_book_if_available meta now reservation_datetime authOk avail scraped
        cancelOk hours num_courts =
      { meta := { meta with status := "expired" }, attempted := false, deregistered := true } := by
  have hb : (meta.status == "cancelled") = false := beq_eq_false_iff_ne.mpr hc
  simp [check_and_book_if_available, hb, ht]

/-- Witness for C7: a watcher in status `scheduled` with check_count 7,
ticking at instant 100 against a target instant 50, expires. -/
theorem c7_watcher_tick_expires_after_target_witness :
    (({ status := "scheduled", check_count := 7 } : WatcherMeta).status ≠ "cancelled") ∧
    ((50 : Int) ≤ 100) ∧
    check_and_book_if_available { status := "scheduled", check_count := 7 } 100 50 true
        (fun _ _ => true) [] (fun _ => true) 1 1 =
      { meta := { status := "expired", check_count := 7 }, attempted := false, deregistered := true } :=
  ⟨by decide, by decide,
   c7_watcher_tick_expires_after_target { status := "scheduled", check_count := 7 } 100 50
     true (fun _ _ => true) [] (fun _ => true) 1 1 (by decide) (by decide)⟩

/-- Claim C9 is false as stated on the scheduled-job path: a one-time job
whose saga attempt fails because authentication is rejected enters
`retrying` — `_execute_reservation_with_retry` keys only on `all_success`
and arms a backoff retry for the authentication failure too. -/
theorem c9_auth_failure_is_retried :
    (make_continuous_reservations false (fun _ _ => false) [] (fun _ => true) 1 1).results
      = [authFailRow] ∧
    (execute_reservation_with_retry "job1" ⟨"scheduled", 0, none⟩ false (fun _ _ => false)
      [] (fun _ => true) 1 1 0 6 0).meta.status = "retrying" ∧
    (execute_reservation_with_retry "job1" ⟨"scheduled", 0, none⟩ false (fun _ _ => false)
      [] (fun _ => true) 1 1 0 6 0).scheduledRetry
      = some (0 + 2 ^ 0, retryJobId "job1" 1) :=
  ⟨rfl, rfl, rfl⟩

/-- Claim C9 amended: when authentication fails at the start of a saga
attempt, the saga returns immediately — a single failed result carrying
the authentication-failure message, no booking attempt issued, nothing
created or cancelled — but the failure is not terminal for a scheduled
one-time job: the scheduler follows the ordinary retry path and sets
status `retrying` whenever the retry count is below `max_retries`. -/
theorem c9_auth_failure_surfaced_immediately (avail : Nat → Nat → Bool)
    (scraped : List ScrapedReservation) (cancelOk : Nat → Bool)
    (hours num_courts : Nat) (job_id : String) (meta : JobMeta) (r : Nat) (now : Int)
    (hr : r < 6) :
    make_continuous_reservations false avail scraped cancelOk hours num_courts =
      { results := [authFailRow], created := [], attempts := [], cancelled := [], ok := false } ∧
    (execute_reservation_with_retry job_id meta false avail scraped cancelOk hours
      num_courts r 6 now).meta.status = "retrying" := by
  refine ⟨rfl, ?_⟩
  simp [execute_reservation_with_retry, make_continuous_reservations, authFailRow, hr]

/-- Witness for C9 at retry count 2: the auth-failing saga surfaces the
failure and the scheduler still marks the job `retrying`. -/
theorem c9_auth_failure_surfaced_immediately_witness :
    2 < 6 ∧
    (make_continuous_reservations false (fun _ _ => true) [] (fun _ => false) 3 2 =
      { results := [authFailRow], created := [], attempts := [], cancelled := [], ok := false } ∧
    (execute_reservation_with_retry "jw" ⟨"scheduled", 0, none⟩ false (fun _ _ => true)
      [] (fun _ => false) 3 2 2 6 40).meta.status = "retrying") :=
  ⟨by decide,
   c9_auth_failure_surfaced_immediately (fun _ _ => true) [] (fun _ => false) 3 2 "jw"
     ⟨"scheduled", 0, none⟩ 2 40 (by decide)⟩

/-- Claim C3 is false as stated: a pending retry execution of a one-time
job whose status was set to `cancelled` by `cancel_job` does not observe
the cancellation — `_execute_reservation_with_retry` performs no status
check, sets the status to `running`, performs the booking attempt, and
here (attempt failing, retry count 1 < 6) overwrites the status with
`retrying` and arms another retry; the retry timer's suffixed id also
differs from the job id that `cancel_job` deregisters. -/
theorem c3_pending_retry_ignores_cancelled_status :
    execute_reservation_with_retry "reservation_a" ⟨"cancelled", 1, none⟩ false
        (fun _ _ => false) [] (fun _ => true) 1 1 1 6 0 =
      { meta := { status := "retrying", retry_count := 1, next_retry := some (0 + 2 ^ 1) }
        attempted := true
        scheduledRetry := some (0 + 2 ^ 1, retryJobId "reservation_a" 2) } ∧
    ("retrying" : String) ≠ "cancelled" ∧
    retryJobId "reservation_a" 2 = "reservation_a_retry_2" ∧
    cancel_job_registry "reservation_a" ["reservation_a_retry_2"] = ["reservation_a_retry_2"] :=
  ⟨rfl, by decide, by decide, by decide⟩

/-- Claim C3 amended: the `cancelled` status is advisory and observed
only by recurring watcher ticks — a tick whose metadata reads `cancelled`
deregisters the timer, changes nothing and performs no booking attempt —
while a pending retry execution of a one-time job performs no status
check at all: it always performs the booking attempt and always leaves
the status at `completed`, `retrying` or `failed`, overwriting a prior
`cancelled`. -/
theorem c3_cancellation_advisory_watcher_only (meta : WatcherMeta)
    (now reservation_datetime : Int) (authOk : Bool) (avail : Nat → Nat → Bool)
    (scraped : List ScrapedReservation) (cancelOk : Nat → Bool) (hours num_courts : Nat)
    (job_id : String) (m : JobMeta) (r mr : Nat) (now' : Int)
    (hc : meta.status = "cancelled") :
    check_and_book_if_available meta now reservation_datetime authOk avail scraped
        cancelOk hours num_courts =
      { meta := meta, attempted := false, deregistered := true } ∧
    (execute_reservation_with_retry job_id m authOk avail scraped cancelOk hours
      num_courts r mr now').attempted = true ∧
    ((execute_reservation_with_retry job_id m authOk avail scraped cancelOk hours
        num_courts r mr now').meta.status = "completed" ∨
     (execute_reservation_with_retry job_id m authOk avail scraped cancelOk hours
        num_courts r mr now').meta.status = "retrying" ∨
     (execute_reservation_with_retry job_id m authOk avail scraped cancelOk hours
        num_courts r mr now').meta.status = "failed") := by
  refine ⟨by simp [check_and_book_if_available, hc], ?_, ?_⟩
  · unfold execute_reservation_with_retry
    cases h1 : (make_continuous_reservations authOk avail scraped cancelOk hours
        num_courts).results.all (fun x => x.success) <;>
      by_cases h2 : r < mr <;> simp [h1, h2]
  · unfold execute_reservation_with_retry
    cases h1 : (make_continuous_reservations authOk avail scraped cancelOk hours
        num_courts).results.all (fun x => x.success) <;>
      by_cases h2 : r < mr <;> simp [h1, h2]

/-- Witness for C3 amended: a cancelled watcher with check_count 4
ticking at instant 10 against target instant 99. -/
theorem c3_cancellation_advisory_watcher_only_witness :
    (({ status := "cancelled", check_count := 4 } : WatcherMeta).status = "cancelled") ∧
    (check_and_book_if_available { status := "cancelled", check_count := 4 } 10 99 true
        (fun _ _ => true) [] (fun _ => true) 1 1 =
      { meta := { status := "cancelled", check_count := 4 }, attempted := false,
        deregistered := true } ∧
    (execute_reservation_with_retry "jz" ⟨"scheduled", 0, none⟩ true (fun _ _ => true)
      [] (fun _ => true) 1 1 0 6 0).attempted = true ∧
    ((execute_reservation_with_retry "jz" ⟨"scheduled", 0, none⟩ true (fun _ _ => true)
        [] (fun _ => true) 1 1 0 6 0).meta.status = "completed" ∨
     (execute_reservation_with_retry "jz" ⟨"scheduled", 0, none⟩ true (fun _ _ => true)
        [] (fun _ => true) 1 1 0 6 0).meta.status = "retrying" ∨
     (execute_reservation_with_retry "jz" ⟨"scheduled", 0, none⟩ true (fun _ _ => true)
        [] (fun _ => true) 1 1 0 6 0).meta.status = "failed")) :=
  ⟨rfl,
   c3_cancellation_advisory_watcher_only { status := "cancelled", check_count := 4 } 10 99
     true (fun _ _ => true) [] (fun _ => true) 1 1 "jz" ⟨"scheduled", 0, none⟩ 0 6 0 rfl⟩

/-- Claim C5: the continuity heuristic. First conjunct, for every
availability oracle: when the previous hour fixed `last_used_courts = S`
and every court of S is available for the current hour, the hour's
iteration attempts exactly the courts of S — in order, with no fallback
enumeration attempt — books them all and keeps S; the fallback runs only
when some booking in S fails, since it is reached only on `all_success`
false. Second conjunct, the concrete 2-hour K = 1 run: court index 0 is
available at hour 0 only and court index 1 at hour 1; the saga books
court 1 (1-based) at hour 0, retries it at hour 1, falls back, and
accepts {(hour 0, court 1), (hour 1, court 2)}. -/
theorem c5_continuity_heuristic (avail : Nat → Nat → Bool)
    (num_courts hour : Nat) (st : SagaState) (s : List Nat)
    (hlast : st.lastUsed = some s) (hs : ∀ c ∈ s, avail hour c = true) :
    bookHour avail num_courts hour st =
      (true,
       { st with
         results := st.results ++ s.map (bookedRow hour)
         created := st.created ++ s.map (bookedRow hour)
         attempts := st.attempts ++ s.map (fun c => (hour, c)) }) ∧
    make_continuous_reservations true
        (fun h c => (h == 0 && c == 0) || (h == 1 && c == 1)) [] (fun _ => true) 2 1 =
      { results := [bookedRow 0 0, bookedRow 1 1]
        created := [bookedRow 0 0, bookedRow 1 1]
        attempts := [(0, 0), (1, 0), (1, 0), (1, 1)]
        cancelled := []
        ok := true } := by
  refine ⟨?_, by decide⟩
  have h := tryCourts_all_success avail hour s hs
  simp [bookHour, hlast, h]

/-- Witness for C5: previous hour used courts `[0]`, everything
available; the hour books exactly court index 0 and nothing else. -/
theorem c5_continuity_heuristic_witness :
    (∀ c ∈ ([0] : List Nat), (fun _ _ => true : Nat → Nat → Bool) 0 c = true) ∧
    bookHour (fun _ _ => true) 1 0
        { results := [], created := [], lastUsed := some [0], attempts := [] } =
      (true,
       { results := [bookedRow 0 0], created := [bookedRow 0 0], lastUsed := some [0],
         attempts := [(0, 0)] }) :=
  ⟨by decide,
   (c5_continuity_heuristic (fun _ _ => true) 1 0
     { results := [], created := [], lastUsed := some [0], attempts := [] } [0]
     rfl (by decide)).1⟩
